import Mathlib

/-!
Formal model of the UrbanOS-POC routing core: the candidate scorer
(routing/selector.py), the reroute watcher (routing/reroute.py), the
optimized-route upsert (routing/db/db_connection.py), the result
publisher (producer/producer_out.py, producer/db/db_connection.py) and
the A* open heap (astar/pathfinder.py, CPython heapq).

Python floats are modelled as rationals; the IEEE value inf is modelled
by the top element of `WithTop Rat`.  SQL NULL and Python None are
modelled by `Option`.  Geometry parsed from WKT is modelled by the list
of its vertices; shapely admits no one-point LineString, so a parsed
path is empty or has at least two vertices.
-/

namespace UrbanOS

/-- Route kind chosen by the scorer. -/
inductive RouteChoice
  | astar
  | mapf
  deriving DecidableEq, Repr

/-- A polyline: the coordinates of a parsed LineString. -/
abbrev Path := List (ℚ × ℚ)

/-- Python `x or default` on an optional numeric value: None and 0 are
falsy and give the default 0, everything else passes through.  For
numbers this coincides with `Option.getD x 0`. -/
def pyNumOr0 (x : Option ℚ) : ℚ := x.getD 0

/-- Python `s or default` on an optional string: None and the empty
string are falsy. -/
def pyStrOr (x : Option String) (d : String) : String :=
  match x with
  | none => d
  | some s => if s = "" then d else s

/-- Python `int()` truncation toward zero on a rational. -/
def pyTrunc (q : ℚ) : Int := if q < 0 then -(Int.floor (-q)) else Int.floor q

/-- Python `int()` on a float that may be infinite: `int(float("inf"))`
raises OverflowError. -/
def pyInt : WithTop ℚ → Except String Int
  | ⊤ => .error "OverflowError"
  | (q : ℚ) => .ok (pyTrunc q)

/-! ## Candidate scorer (routing/selector.py) -/

/-- selector.py HISTORY_BLEND. -/
def HISTORY_BLEND : ℚ := 15 / 100

/-- selector.py KNOWN_LINE_NUDGE. -/
def KNOWN_LINE_NUDGE : ℚ := 5 / 100

/-- selector.py CLOSE_MARGIN. -/
def CLOSE_MARGIN : ℚ := 10 / 100

/-- selector.py MAPF_PENALTY_METERS. -/
def MAPF_PENALTY_METERS : ℚ := 100

/-- The latest astar_routes row consumed by the scorer: distance, the
parsed path (`none` when the stored path is NULL or its WKT fails to
parse), and origin coordinates. -/
structure AstarRow where
  distance : Option ℚ
  path : Option Path
  origin_lat : Option ℚ
  origin_lon : Option ℚ
  deriving DecidableEq, Repr

/-- The latest successful mapf_routes row consumed by the scorer. -/
structure MapfRow where
  stop_id : String
  distance : Option ℚ
  path : Option Path
  deriving DecidableEq, Repr

/-- The best aligned live departure for (client, stop). -/
structure DepRow where
  delay_seconds : Option ℚ
  route_id : Option String
  deriving DecidableEq, Repr

/-- Everything `evaluate_and_store_best_route` reads from the database
and the model, gathered as one input record: the best combined POI, the
latest location (used only by the fallback branch), the latest A* and
MAPF candidate rows, the best departure, the LSTM scores (`none` when
the model is missing or scoring raised), the historical usage ratios,
the top favoured route ids, and the switching profile seconds. -/
structure SelectorInput where
  poi : Option (ℚ × ℚ)
  latest_location : Option (ℚ × ℚ)
  astar_row : Option AstarRow
  mapf_row : Option MapfRow
  dep : Option DepRow
  scores : Option (ℚ × ℚ)
  ratios : ℚ × ℚ
  top_routes : List String
  avg_switch : Option ℚ
  deriving DecidableEq, Repr

/-- A row persisted into optimized_routes by `save_optimized_route` as
called from the scorer (client_id and created_at omitted: fixed by the
call site). -/
structure OptRow where
  stop_id : String
  destination : ℚ × ℚ
  path : Path
  segment_type : String
  is_chosen : Bool
  origin : Option ℚ × Option ℚ
  deriving DecidableEq, Repr

/-- selector.py `_blend_with_history`: shift-normalise the model scores,
normalise the usage ratios, mix with weight HISTORY_BLEND, bump the
multimodal component when the departure is on a favourite route, and
lightly renormalise.  Returns (p_astar, p_mapf). -/
def blend_with_history (scores : ℚ × ℚ) (ratios : ℚ × ℚ)
    (dep_route_id : Option String) (top_routes : List String) : ℚ × ℚ :=
  let m := min scores.1 scores.2
  let s0 := scores.1 - m
  let s1 := scores.2 - m
  let denom := s0 + s1
  let p_model : ℚ × ℚ :=
    if denom ≤ 1 / 1000000000 then (1/2, 1/2) else (s0 / denom, s1 / denom)
  let hsum := ratios.1 + ratios.2
  let p_hist : ℚ × ℚ :=
    if hsum ≤ 1 / 1000000000 then (1/2, 1/2) else (ratios.1 / hsum, ratios.2 / hsum)
  let b0 := (1 - HISTORY_BLEND) * p_model.1 + HISTORY_BLEND * p_hist.1
  let b1 := (1 - HISTORY_BLEND) * p_model.2 + HISTORY_BLEND * p_hist.2
  let b1 :=
    match dep_route_id with
    | none => b1
    | some rid => if rid ≠ "" ∧ rid ∈ top_routes then min 1 (b1 + KNOWN_LINE_NUDGE) else b1
  let total := b0 + b1
  if total > 1 / 1000000000 then (b0 / total, b1 / total) else (b0, b1)

/-- selector.py lines 303-310: argmax of the blended pair, overridden to
multimodal when the pair is within CLOSE_MARGIN, a switching profile
exists, the live delay is at most 60 s and the switch profile is at most
120 s. -/
def chooseWithTieBreaker (blended : ℚ × ℚ) (avg_switch : Option ℚ) (delay : ℚ) :
    RouteChoice :=
  let margin := |blended.2 - blended.1|
  let base : RouteChoice := if blended.2 > blended.1 then .mapf else .astar
  if margin < CLOSE_MARGIN then
    match avg_switch with
    | some s => if delay ≤ 60 ∧ s ≤ 120 then .mapf else base
    | none => base
  else base

/-- selector.py `evaluate_and_store_best_route`, as a function from the
rows it reads to the optimized_routes row it persists (`none` when it
returns without persisting one).  Mirrors the source branch for branch:
no POI does nothing; no A* row persists a fallback row with an empty
path (when a location exists to seed from); no MAPF row or no aligned
departure persists the A* path as direct; otherwise LSTM scores are
blended and tie-broken, and on a scoring failure the
distance-plus-penalty-plus-delay heuristic decides. -/
def evaluate_and_store_best_route (inp : SelectorInput) : Option OptRow :=
  match inp.poi with
  | none => none
  | some (lat, lon) =>
    match inp.astar_row with
    | none =>
      match inp.latest_location with
      | none => none
      | some (olat, olon) =>
        some { stop_id := "direct", destination := (lat, lon), path := [],
               segment_type := "fallback", is_chosen := true,
               origin := (some olat, some olon) }
    | some astar =>
      let astar_path := astar.path.getD []
      let astar_dist := pyNumOr0 astar.distance
      let directRow : OptRow :=
        { stop_id := "direct", destination := (lat, lon), path := astar_path,
          segment_type := "direct", is_chosen := true,
          origin := (astar.origin_lat, astar.origin_lon) }
      match inp.mapf_row with
      | none => some directRow
      | some mapf =>
        let mapf_path := mapf.path.getD []
        let mapf_dist := pyNumOr0 mapf.distance
        let mmRow : OptRow :=
          { stop_id := mapf.stop_id, destination := (lat, lon), path := mapf_path,
            segment_type := "multimodal", is_chosen := true,
            origin := (astar.origin_lat, astar.origin_lon) }
        match inp.dep with
        | none => some directRow
        | some dep =>
          let delay := pyNumOr0 dep.delay_seconds
          match inp.scores with
          | some scores =>
            let blended := blend_with_history scores inp.ratios dep.route_id inp.top_routes
            match chooseWithTieBreaker blended inp.avg_switch delay with
            | .astar => some directRow
            | .mapf => some mmRow
          | none =>
            if astar_dist < mapf_dist + MAPF_PENALTY_METERS + max 0 delay then
              some directRow
            else
              some mmRow

/-! ## Reroute watcher (routing/reroute.py) -/

/-- reroute.py DEVIATION_METERS_DIRECT. -/
def DEVIATION_METERS_DIRECT : ℚ := 35

/-- reroute.py DEVIATION_METERS_MAPF. -/
def DEVIATION_METERS_MAPF : ℚ := 60

/-- reroute.py DEVIATION_STREAKS_REQUIRED. -/
def DEVIATION_STREAKS_REQUIRED : Nat := 2

/-- reroute.py DELAY_THRESHOLD_SECONDS. -/
def DELAY_THRESHOLD_SECONDS : ℚ := 180

/-- reroute.py DEPARTURE_STALE_SECONDS. -/
def DEPARTURE_STALE_SECONDS : ℚ := 45

/-- Outcome of `shapely.wkt.loads` on a stored path value, as the
watcher sees it: SQL NULL, the empty string (both falsy in Python), a
WKT string that fails to parse, one that parses to a geometry other
than a LineString, or a LineString given by its vertex list (empty for
LINESTRING EMPTY; shapely admits no one-point LineString). -/
inductive WktVal
  | null
  | emptyStr
  | parseFail
  | notLineString
  | lineString (p : Path)
  deriving DecidableEq, Repr

/-- Python falsiness of the raw path value (`if not line_wkt`): NULL or
the empty string. -/
def wktFalsy : WktVal → Bool
  | .null => true
  | .emptyStr => true
  | _ => false

/-- reroute.py `_meters_point_to_linestring`: infinity when the value is
falsy, fails to parse, is not a LineString, or is empty; otherwise the
planar point-to-line distance in meters.  The geometric kernel
(EPSG:3857 projection and shapely distance) is abstracted as `pdist`,
a nonnegative-valued function of the point and the vertex list. -/
def meters_point_to_linestring (pdist : ℚ → ℚ → Path → ℚ)
    (lat lon : ℚ) (line_wkt : WktVal) : WithTop ℚ :=
  match line_wkt with
  | .null => ⊤
  | .emptyStr => ⊤
  | .parseFail => ⊤
  | .notLineString => ⊤
  | .lineString p => if p = [] then ⊤ else (pdist lat lon p : WithTop ℚ)

/-- The chosen-route record `_fetch_current_choice` builds: lowered
segment_type coalesced to the empty string, the raw stop_id, the raw
path value and created_at. -/
structure ChoiceRow where
  segment_type : String
  stop_id : Option String
  path_wkt : WktVal
  created_at : Option ℚ
  deriving DecidableEq, Repr

/-- reroute.py `_needs_reroute_for_deviation`.  The in-memory streak
counter for the client enters as `count` and the updated counter is
returned first (the dictionary write happens before the reason string
is built, so it survives an OverflowError from `int` applied to an
infinite distance, which is modelled as the `Except` error). -/
def needs_reroute_for_deviation (pdist : ℚ → ℚ → Path → ℚ) (count : Nat)
    (choice : Option ChoiceRow) (lat lon : ℚ) :
    Nat × Except String (Bool × String) :=
  match choice with
  | none => (count, .ok (true, "no_path_in_choice"))
  | some c =>
    if wktFalsy c.path_wkt then (count, .ok (true, "no_path_in_choice"))
    else
      let dist := meters_point_to_linestring pdist lat lon c.path_wkt
      let thr := if c.segment_type = "multimodal" then DEVIATION_METERS_MAPF
                 else DEVIATION_METERS_DIRECT
      let count' := if (thr : WithTop ℚ) < dist then count + 1 else 0
      if DEVIATION_STREAKS_REQUIRED ≤ count' then
        match pyInt dist with
        | .ok n => (count', .ok (true, "off_path_" ++ toString n ++ "m"))
        | .error e => (count', .error e)
      else (count', .ok (false, ""))

/-- The departure snapshot `_latest_departure_snapshot` returns
(departure_time as seconds, already parsed; delay). -/
structure DepSnap where
  departure_time : Option ℚ
  delay_seconds : Option ℚ
  deriving DecidableEq, Repr

/-- reroute.py `_needs_reroute_for_gtfs`: only multimodal choices are
checked; missing stop_id, missing candidate, missing snapshot, a
departure more than DEPARTURE_STALE_SECONDS in the past, or a delay
above DELAY_THRESHOLD_SECONDS each force a reroute. -/
def needs_reroute_for_gtfs (now : ℚ) (hasCand : Bool) (dep : Option DepSnap)
    (choice : Option ChoiceRow) : Bool × String :=
  match choice with
  | none => (false, "")
  | some c =>
    if c.segment_type ≠ "multimodal" then (false, "")
    else
      match c.stop_id with
      | none => (true, "missing_stop_id")
      | some sid =>
        if sid = "" then (true, "missing_stop_id")
        else if ¬ hasCand then (true, "no_departure_candidate")
        else
          match dep with
          | none => (true, "no_departure_row")
          | some d =>
            let delay := pyNumOr0 d.delay_seconds
            match d.departure_time with
            | some t =>
              if now - t > DEPARTURE_STALE_SECONDS then (true, "departure_passed")
              else if delay > DELAY_THRESHOLD_SECONDS then
                (true, "delay_" ++ toString (pyTrunc delay) ++ "s")
              else (false, "")
            | none =>
              if delay > DELAY_THRESHOLD_SECONDS then
                (true, "delay_" ++ toString (pyTrunc delay) ++ "s")
              else (false, "")

/-- The row `_fetch_current_choice_raw` reads from view_routes_live. -/
structure RawChoice where
  stop_id : Option String
  segment_type : Option String
  origin_lat : Option ℚ
  origin_lon : Option ℚ
  destination_lat : Option ℚ
  destination_lon : Option ℚ
  path : Option String
  deriving DecidableEq, Repr

/-- A reroutes table row as written by `save_reroute` (client_id and
created_at fixed by the call site). -/
structure RerouteRow where
  stop_id : Option String
  destination : Option ℚ × Option ℚ
  path_wkt : String
  segment_type : String
  reason : String
  origin : Option ℚ × Option ℚ
  previous_stop_id : Option String
  previous_segment_type : Option String
  deriving DecidableEq, Repr

/-- reroute.py `_reroute_client` after the recomputation: compare the
before and after snapshots of view_routes_live and persist a reroute
event when the coalesced (segment_type, stop_id, path) differ, when
there was no before row, and never when there is no after row. -/
def reroute_event (before after : Option RawChoice) (reason : String) :
    Option RerouteRow :=
  match after with
  | none => none
  | some a =>
    let changed :=
      match before with
      | none => true
      | some b =>
        decide (pyStrOr b.segment_type "" ≠ pyStrOr a.segment_type "") ||
        decide (pyStrOr b.stop_id "" ≠ pyStrOr a.stop_id "") ||
        decide (pyStrOr b.path "" ≠ pyStrOr a.path "")
    if changed then
      some { stop_id := a.stop_id,
             destination := (a.destination_lat, a.destination_lon),
             path_wkt := pyStrOr a.path "LINESTRING EMPTY",
             segment_type := pyStrOr a.segment_type "unknown",
             reason := reason,
             origin := (a.origin_lat, a.origin_lon),
             previous_stop_id := before.bind (·.stop_id),
             previous_segment_type := before.bind (·.segment_type) }
    else none

/-- The tuple the specification says decides whether a reroute event is
recorded: the raw (segment_type, stop_id, path) of the chosen row. -/
def choiceTuple (r : RawChoice) : Option String × Option String × Option String :=
  (r.segment_type, r.stop_id, r.path)

/-- Per-client inputs of one reroute watcher tick. -/
structure ClientTick where
  client_id : String
  choice : Option ChoiceRow
  loc : Option (ℚ × ℚ × ℚ)
  gtfs_has_candidate : Bool
  gtfs_dep : Option DepSnap
  deriving DecidableEq, Repr

/-- reroute.py `loop_once` restricted to its control flow: walk the
active clients in order; skip a client with no location; run the
deviation check (threading the streak counters); an exception there
propagates and the remaining clients are not processed; on a fired
check record the (client, reason) reroute and continue; otherwise run
the GTFS check.  Returns the final counters and either the recorded
reroutes or the escaped exception. -/
def loop_once (pdist : ℚ → ℚ → Path → ℚ) (now : ℚ) :
    List ClientTick → (String → Nat) →
    (String → Nat) × Except String (List (String × String))
  | [], counts => (counts, .ok [])
  | c :: rest, counts =>
    match c.loc with
    | none => loop_once pdist now rest counts
    | some (lat, lon, _) =>
      let r := needs_reroute_for_deviation pdist (counts c.client_id) c.choice lat lon
      let counts' := fun id => if id = c.client_id then r.1 else counts id
      match r.2 with
      | .error e => (counts', .error e)
      | .ok (true, why) =>
        let rec' := loop_once pdist now rest counts'
        (rec'.1, rec'.2.map (fun evs => (c.client_id, why) :: evs))
      | .ok (false, _) =>
        match needs_reroute_for_gtfs now c.gtfs_has_candidate c.gtfs_dep c.choice with
        | (true, why) =>
          let rec' := loop_once pdist now rest counts'
          (rec'.1, rec'.2.map (fun evs => (c.client_id, why) :: evs))
        | (false, _) => loop_once pdist now rest counts'

/-! ## Optimized-route upsert (routing/db/db_connection.py) -/

/-- A stored optimized_routes row. -/
structure StoredRoute where
  client_id : String
  stop_id : String
  segment_type : String
  destination_lat : ℚ
  destination_lon : ℚ
  path : String
  is_chosen : Bool
  origin_lat : Option ℚ
  origin_lon : Option ℚ
  created_at : ℚ
  deriving DecidableEq, Repr

/-- The conflict key of the upsert. -/
def routeKey (r : StoredRoute) : String × String × String :=
  (r.client_id, r.stop_id, r.segment_type)

/-- Arguments of `save_optimized_route` (path already rendered to WKT;
`now` stands for NOW()). -/
structure SaveArgs where
  client_id : String
  stop_id : String
  segment_type : String
  destination_coords : ℚ × ℚ
  path : String
  is_chosen : Bool
  origin_coords : Option (ℚ × ℚ)
  deriving DecidableEq, Repr

/-- The fresh row the INSERT arm of `save_optimized_route` writes. -/
def insertedRoute (a : SaveArgs) (now : ℚ) : StoredRoute :=
  { client_id := a.client_id, stop_id := a.stop_id,
    segment_type := a.segment_type,
    destination_lat := a.destination_coords.1,
    destination_lon := a.destination_coords.2,
    path := a.path, is_chosen := a.is_chosen,
    origin_lat := (a.origin_coords.map Prod.fst),
    origin_lon := (a.origin_coords.map Prod.snd),
    created_at := now }

/-- The DO UPDATE arm of `save_optimized_route`: only path, is_chosen,
origin_lat, origin_lon and created_at are replaced; the destination
columns are not in the SET list and keep their stored values. -/
def updatedRoute (old : StoredRoute) (a : SaveArgs) (now : ℚ) : StoredRoute :=
  { old with
    path := a.path, is_chosen := a.is_chosen,
    origin_lat := (a.origin_coords.map Prod.fst),
    origin_lon := (a.origin_coords.map Prod.snd),
    created_at := now }

/-- routing/db `save_optimized_route` over a table modelled as a list of
rows: ON CONFLICT (client_id, stop_id, segment_type) DO UPDATE. -/
def save_optimized_route (table : List StoredRoute) (a : SaveArgs) (now : ℚ) :
    List StoredRoute :=
  if table.any (fun r => routeKey r = (a.client_id, a.stop_id, a.segment_type)) then
    table.map (fun r =>
      if routeKey r = (a.client_id, a.stop_id, a.segment_type) then
        updatedRoute r a now
      else r)
  else
    table ++ [insertedRoute a now]

/-! ## Result publisher query (producer/db/db_connection.py) -/

/-- A route row as selected by `fetch_optimized_route` from either
optimized_routes or reroutes. -/
structure RouteRow where
  client_id : String
  stop_id : Option String
  destination_lat : Option ℚ
  destination_lon : Option ℚ
  path : Option String
  segment_type : Option String
  created_at : ℚ
  deriving DecidableEq, Repr

/-- An optimized_routes row as seen by the producer query: the common
route columns plus the is_valid flag the query filters on. -/
structure ProdOptRow where
  row : RouteRow
  is_valid : Bool
  deriving DecidableEq, Repr

/-- An mqtt_sessions row: a half-open session window. -/
structure SessionRow where
  client_id : String
  session_id : Int
  start_time : ℚ
  end_time : ℚ
  deriving DecidableEq, Repr

/-- A view_current_session_id_from_geodata row. -/
structure CurrentSessionRow where
  client_id : String
  session_id : Int
  deriving DecidableEq, Repr

/-- The tables the producer query reads. -/
structure ProducerDB where
  optimized_routes : List ProdOptRow
  reroutes : List RouteRow
  mqtt_sessions : List SessionRow
  current_sessions : List CurrentSessionRow
  deriving Repr

/-- Join condition of producer `fetch_optimized_route`: the session is
the client's, the row's created_at falls inside the session window, and
the session is the client's current one. -/
def sessionJoin (r : RouteRow) (s : SessionRow) (c : CurrentSessionRow) : Prop :=
  s.client_id = r.client_id ∧ s.start_time ≤ r.created_at ∧
  r.created_at < s.end_time ∧ c.client_id = r.client_id ∧
  c.session_id = s.session_id

instance (r : RouteRow) (s : SessionRow) (c : CurrentSessionRow) :
    Decidable (sessionJoin r s c) := by
  unfold sessionJoin; infer_instance

/-- producer/db `fetch_optimized_route` as list semantics: the union of
is_valid optimized rows and all reroute rows, joined to mqtt_sessions
and the current-session view, restricted to created_at within the last
10 seconds of now (ordering dropped).  Each output carries the joined
session_id. -/
def fetch_optimized_route (db : ProducerDB) (now : ℚ) : List (RouteRow × Int) :=
  ((db.optimized_routes.filter (·.is_valid)).map (·.row) ++ db.reroutes).flatMap
    (fun r =>
      db.mqtt_sessions.flatMap (fun s =>
        db.current_sessions.flatMap (fun c =>
          if sessionJoin r s c ∧ now - 10 ≤ r.created_at then [(r, s.session_id)]
          else [])))

/-- The selection the specification describes for the publisher query:
union of the two tables (no validity filter mentioned), the same
session join, and created_at within the last 60 seconds. -/
def specPublisherSelection (db : ProducerDB) (now : ℚ) (r : RouteRow) : Prop :=
  (r ∈ db.optimized_routes.map (·.row) ∨ r ∈ db.reroutes) ∧
  (∃ s ∈ db.mqtt_sessions, ∃ c ∈ db.current_sessions, sessionJoin r s c) ∧
  now - 60 ≤ r.created_at

/-! ## Result publisher loop (producer/producer_out.py) -/

/-- A row as consumed by `publish_results` (created_at already rendered
to its ISO string when present). -/
structure PubRow where
  client_id : String
  session_id : Int
  created_at_iso : Option String
  deriving DecidableEq, Repr

/-- The dedup key of a row. -/
def pubKey (r : PubRow) : String × Int × String :=
  (r.client_id, r.session_id, r.created_at_iso.getD "")

/-- producer_out.py `publish_results`, one poll over its rows: skip a
key already in the seen set, otherwise add the key to the seen set and
then attempt the publish; a publish failure (the `publishOk` oracle
returning false) is caught and logged and the loop continues.  Returns
the final seen set and the keys actually published, in order. -/
def publish_results_poll (publishOk : String × Int × String → Bool) :
    List PubRow → List (String × Int × String) →
    List (String × Int × String) × List (String × Int × String)
  | [], seen => (seen, [])
  | r :: rs, seen =>
    let key := pubKey r
    if key ∈ seen then publish_results_poll publishOk rs seen
    else
      let seen' := key :: seen
      let rest := publish_results_poll publishOk rs seen'
      (rest.1, if publishOk key then key :: rest.2 else rest.2)

/-! ## CPython heapq and the A* planner (astar/pathfinder.py)

The planner stores `(f, node)` pairs in a `heapq` heap.  The heap
functions below follow CPython `Lib/heapq.py` (`heappush`, `heappop`,
`_siftdown`, `_siftup`), with the inner while loops given their natural
fuel (`_siftdown` walks up through parents so the start position
bounds it; `_siftup` walks down so the heap length bounds it). -/

/-- CPython `_siftdown` inner loop: `newitem` bubbles up from `pos`
toward `startpos`, moving larger parents down. -/
def siftdownAux {α : Type} (lt : α → α → Bool) (startpos : Nat) (newitem : α) :
    List α → Nat → Nat → List α
  | heap, 0, pos => heap.set pos newitem
  | heap, fuel + 1, pos =>
    if startpos < pos then
      let parentpos := (pos - 1) / 2
      match heap.get? parentpos with
      | some parent =>
        if lt newitem parent then
          siftdownAux lt startpos newitem (heap.set pos parent) fuel parentpos
        else heap.set pos newitem
      | none => heap.set pos newitem
    else heap.set pos newitem

/-- CPython `_siftdown`. -/
def siftdown {α : Type} (lt : α → α → Bool) (heap : List α) (startpos pos : Nat) :
    List α :=
  match heap.get? pos with
  | some newitem => siftdownAux lt startpos newitem heap pos pos
  | none => heap

/-- CPython `_siftup` inner loop: walk the hole at `pos` down, always
toward the smaller child, returning the updated list and the final
position of the hole. -/
def siftupWalk {α : Type} (lt : α → α → Bool) :
    List α → Nat → Nat → List α × Nat
  | heap, 0, pos => (heap, pos)
  | heap, fuel + 1, pos =>
    let childpos := 2 * pos + 1
    match heap.get? childpos with
    | none => (heap, pos)
    | some c =>
      let pick : Nat × α :=
        match heap.get? (childpos + 1) with
        | some rgt => if ¬ lt c rgt then (childpos + 1, rgt) else (childpos, c)
        | none => (childpos, c)
      siftupWalk lt (heap.set pos pick.2) fuel pick.1

/-- CPython `_siftup`: walk the hole down, place `newitem` there, then
restore the invariant upward with `siftdown`. -/
def siftup {α : Type} (lt : α → α → Bool) (heap : List α) (pos : Nat) : List α :=
  match heap.get? pos with
  | none => heap
  | some newitem =>
    let w := siftupWalk lt heap heap.length pos
    siftdown lt (w.1.set w.2 newitem) pos w.2

/-- CPython `heappush`. -/
def heappush {α : Type} (lt : α → α → Bool) (heap : List α) (item : α) : List α :=
  siftdown lt (heap ++ [item]) 0 heap.length

/-- CPython `heappop`: pop the last element; if the heap is still
nonempty return the root, move the last element there and sift it up.
Returns the popped item and the remaining heap (`none` on empty). -/
def heappop {α : Type} (lt : α → α → Bool) (heap : List α) :
    Option (α × List α) :=
  match heap.getLast? with
  | none => none
  | some lastelt =>
    let rest := heap.dropLast
    match rest with
    | [] => some (lastelt, [])
    | x :: _ => some (x, siftup lt (rest.set 0 lastelt) 0)

/-- The Python comparison on the `(f, node)` tuples the planner pushes:
lexicographic on f then node id. -/
def entryLt (a b : WithTop ℚ × Nat) : Bool :=
  decide (a.1 < b.1) || (decide (a.1 = b.1) && decide (a.2 < b.2))

/-- The road graph as `a_star` consumes it: node list, neighbor
function, edge length (with the great-circle fallback folded into the
function; infinite when coordinates are missing) and the great-circle
heuristic toward a goal. -/
structure OsmGraph where
  nodes : List Nat
  neighbors : Nat → List Nat
  edgeLength : Nat → Nat → WithTop ℚ
  heuristic : Nat → Nat → WithTop ℚ

/-- The mutable state of the `a_star` main loop. -/
structure AstarState where
  open_list : List (WithTop ℚ × Nat)
  came_from : Nat → Option Nat
  g_score : Nat → WithTop ℚ
  f_score : Nat → WithTop ℚ

/-- The body of the neighbor for-loop in `a_star`: relax the edge and,
when the neighbor is not already an open entry, push `(f, neighbor)`. -/
def relaxNeighbor (g : OsmGraph) (goal current : Nat) (st : AstarState)
    (neighbor : Nat) : AstarState :=
  let tentative := st.g_score current + g.edgeLength current neighbor
  if tentative < st.g_score neighbor then
    let fNew := tentative + g.heuristic neighbor goal
    { open_list :=
        if (st.open_list.map Prod.snd).contains neighbor then st.open_list
        else heappush entryLt st.open_list (fNew, neighbor),
      came_from := fun n => if n = neighbor then some current else st.came_from n,
      g_score := fun n => if n = neighbor then tentative else st.g_score n,
      f_score := fun n => if n = neighbor then fNew else st.f_score n }
  else st

/-- pathfinder.py `reconstruct_path`, built front-first (the source
appends then reverses), with fuel bounding the walk through
`came_from`. -/
def reconstruct_path (came_from : Nat → Option Nat) : Nat → Nat → List Nat
  | 0, current => [current]
  | fuel + 1, current =>
    match came_from current with
    | none => [current]
    | some prev => reconstruct_path came_from fuel prev ++ [current]

/-- pathfinder.py `a_star` main while loop, fuelled. -/
def a_star_loop (g : OsmGraph) (goal : Nat) : Nat → AstarState → Option (List Nat)
  | 0, _ => none
  | fuel + 1, st =>
    match heappop entryLt st.open_list with
    | none => none
    | some ((_, current), rest) =>
      if current = goal then some (reconstruct_path st.came_from fuel current)
      else
        a_star_loop g goal fuel
          ((g.neighbors current).foldl (relaxNeighbor g goal current)
            { st with open_list := rest })

/-- pathfinder.py `a_star`: initial heap `[(0, start)]`, g-score 0 at
start and infinite elsewhere, f-score the heuristic at start. -/
def a_star (g : OsmGraph) (start goal : Nat) (fuel : Nat) : Option (List Nat) :=
  a_star_loop g goal fuel
    { open_list := heappush entryLt [] ((0 : WithTop ℚ), start),
      came_from := fun _ => none,
      g_score := fun n => if n = start then (0 : WithTop ℚ) else ⊤,
      f_score := fun n => if n = start then g.heuristic start goal else ⊤ }

/-! ## Well-formedness of parsed geometry and concrete instances -/

/-- Shapely parse invariant for an optional stored path: a parsed
LineString is empty or has at least two vertices (shapely rejects
one-point LineStrings, and the parse failure cases are mapped to
`none`). -/
def wfPathOpt : Option Path → Prop
  | none => True
  | some p => p = [] ∨ 2 ≤ p.length

/-- A scorer input in which the latest stored A* row has a NULL path
(exactly the row the fallback branch of the scorer itself seeds) and no
MAPF candidate exists. -/
def selInputNullAstarPath : SelectorInput :=
  { poi := some (1, 2), latest_location := some (3, 4),
    astar_row := some { distance := some 0, path := none,
                        origin_lat := none, origin_lon := none },
    mapf_row := none, dep := none, scores := none,
    ratios := (1/2, 1/2), top_routes := [], avg_switch := none }

/-- A scorer input exercising the heuristic fallback with A* 500 m,
MAPF 450 m and live delay 0, as in scenario S5. -/
def selInputS5 : SelectorInput :=
  { poi := some (1, 2), latest_location := some (3, 4),
    astar_row := some { distance := some 500, path := some [(0, 0), (1, 1)],
                        origin_lat := some 3, origin_lon := some 4 },
    mapf_row := some { stop_id := "S100", distance := some 450,
                       path := some [(0, 0), (2, 2)] },
    dep := some { delay_seconds := some 0, route_id := some "14" },
    scores := none,
    ratios := (1/5, 4/5), top_routes := ["14"], avg_switch := none }

/-- A view_routes_live snapshot whose stop_id is NULL. -/
def rawChoiceNullStop : RawChoice :=
  { stop_id := none, segment_type := some "direct",
    origin_lat := some 3, origin_lon := some 4,
    destination_lat := some 1, destination_lon := some 2,
    path := some "LINESTRING (0 0, 1 1)" }

/-- The same snapshot with stop_id the empty string instead of NULL. -/
def rawChoiceEmptyStop : RawChoice :=
  { rawChoiceNullStop with stop_id := some "" }

/-- A direct chosen row whose parsed path has two vertices. -/
def choiceDirectTwoVertex : ChoiceRow :=
  { segment_type := "direct", stop_id := some "direct",
    path_wkt := .lineString [(0, 0), (1, 1)], created_at := none }

/-- A chosen row whose stored path is LINESTRING EMPTY, as the fallback
rows persisted by the scorer carry. -/
def choiceEmptyLinestring : ChoiceRow :=
  { segment_type := "fallback", stop_id := some "direct",
    path_wkt := .lineString [], created_at := none }

/-- A reroute-watcher tick for a client advised by an empty-LineString
route. -/
def tickEmptyLinestring : ClientTick :=
  { client_id := "c1", choice := some choiceEmptyLinestring,
    loc := some (0, 0, 0), gtfs_has_candidate := false, gtfs_dep := none }

/-- A second, healthy client queued after the crashing one. -/
def tickHealthy : ClientTick :=
  { client_id := "c2", choice := some choiceDirectTwoVertex,
    loc := some (0, 0, 0), gtfs_has_candidate := true, gtfs_dep := none }

/-- A stored optimized-routes row for the upsert example. -/
def storedRouteEx : StoredRoute :=
  { client_id := "c1", stop_id := "S100", segment_type := "multimodal",
    destination_lat := 59, destination_lon := 18,
    path := "LINESTRING (0 0, 1 1)", is_chosen := true,
    origin_lat := some 3, origin_lon := some 4, created_at := 0 }

/-- Upsert arguments hitting the same key with a different
destination. -/
def saveArgsEx : SaveArgs :=
  { client_id := "c1", stop_id := "S100", segment_type := "multimodal",
    destination_coords := (60, 19), path := "LINESTRING (2 2, 3 3)",
    is_chosen := true, origin_coords := some (5, 6) }

/-- A producer database with a single valid chosen row created 30
seconds before the query time, inside its session window. -/
def producerDbEx : ProducerDB :=
  { optimized_routes :=
      [{ row := { client_id := "c1", stop_id := some "S100",
                  destination_lat := some 59, destination_lon := some 18,
                  path := some "LINESTRING (0 0, 1 1)",
                  segment_type := some "multimodal", created_at := 970 },
         is_valid := true }],
    reroutes := [],
    mqtt_sessions := [{ client_id := "c1", session_id := 7,
                        start_time := 900, end_time := 1100 }],
    current_sessions := [{ client_id := "c1", session_id := 7 }] }

/-- The route row inside `producerDbEx`. -/
def producerRowEx : RouteRow :=
  { client_id := "c1", stop_id := some "S100",
    destination_lat := some 59, destination_lon := some 18,
    path := some "LINESTRING (0 0, 1 1)",
    segment_type := some "multimodal", created_at := 970 }

/-- A publisher row for the dedup example. -/
def pubRowEx : PubRow :=
  { client_id := "c1", session_id := 7, created_at_iso := some "t0" }

/-- A geometric kernel that reports a constant 70 m deviation, as in
scenario S4. -/
def pdistConst70 : ℚ → ℚ → Path → ℚ := fun _ _ _ => 70

/-- The direct row the scorer persists for `selInputS5`. -/
def rowS5direct : OptRow :=
  { stop_id := "direct", destination := (1, 2), path := [(0, 0), (1, 1)],
    segment_type := "direct", is_chosen := true, origin := (some 3, some 4) }

/-! ## Theorems -/

/-- C1: in the candidate scorer, whenever the blended probabilities are
within CLOSE_MARGIN = 0.10 of each other and a switching profile exists
for the client and stop, the final choice is forced to multimodal when
the live delay is at most 60 seconds and avg_switch_seconds is at most
120 seconds, both boundaries inclusive; otherwise the choice is the
argmax of the blended pair. -/
theorem scorer_tie_breaker_forces_multimodal (b0 b1 s delay : ℚ)
    (hclose : |b1 - b0| < 10 / 100) :
    (delay ≤ 60 ∧ s ≤ 120 →
      chooseWithTieBreaker (b0, b1) (some s) delay = RouteChoice.mapf) ∧
    (¬ (delay ≤ 60 ∧ s ≤ 120) →
      chooseWithTieBreaker (b0, b1) (some s) delay =
        (if b1 > b0 then RouteChoice.mapf else RouteChoice.astar)) := by
  constructor
  · intro h
    simp only [chooseWithTieBreaker, CLOSE_MARGIN]
    rw [if_pos hclose, if_pos h]
  · intro h
    simp only [chooseWithTieBreaker, CLOSE_MARGIN]
    rw [if_pos hclose, if_neg h]

/-- Witness for C1 at the inclusive boundary: blended pair (0.55, 0.5)
whose argmax is the direct route, delay exactly 60 and switch profile
exactly 120 force multimodal. -/
theorem scorer_tie_breaker_witness :
    chooseWithTieBreaker ((55/100 : ℚ), (50/100 : ℚ)) (some 120) 60 =
      RouteChoice.mapf :=
  (scorer_tie_breaker_forces_multimodal (55/100) (50/100) 120 60
    (by rw [abs_lt]; constructor <;> norm_num)).1 ⟨by norm_num, by norm_num⟩

/-- C2: when the LSTM scores are unavailable (model missing or scoring
raised), the scorer persists the A* candidate as the direct row exactly
when astar_dist < mapf_dist + 100 + max(0, delay) with a null delay
treated as 0, and otherwise persists the multimodal candidate carrying
the MAPF stop_id. -/
theorem scorer_heuristic_fallback (inp : SelectorInput) (lat lon : ℚ)
    (a : AstarRow) (m : MapfRow) (d : DepRow)
    (hpoi : inp.poi = some (lat, lon)) (ha : inp.astar_row = some a)
    (hm : inp.mapf_row = some m) (hd : inp.dep = some d)
    (hs : inp.scores = none) :
    evaluate_and_store_best_route inp =
      (if pyNumOr0 a.distance <
          pyNumOr0 m.distance + MAPF_PENALTY_METERS + max 0 (pyNumOr0 d.delay_seconds)
       then some { stop_id := "direct", destination := (lat, lon),
                   path := a.path.getD [], segment_type := "direct",
                   is_chosen := true, origin := (a.origin_lat, a.origin_lon) }
       else some { stop_id := m.stop_id, destination := (lat, lon),
                   path := m.path.getD [], segment_type := "multimodal",
                   is_chosen := true, origin := (a.origin_lat, a.origin_lon) }) := by
  unfold evaluate_and_store_best_route
  rw [hpoi, ha, hm, hd, hs]

/-- Witness for C2, scenario S5: A* 500 m, MAPF 450 m, delay 0; the
heuristic picks A* because 500 < 450 + 100 + 0. -/
theorem scorer_heuristic_fallback_witness :
    evaluate_and_store_best_route selInputS5 =
      some { stop_id := "direct", destination := (1, 2),
             path := [(0, 0), (1, 1)], segment_type := "direct",
             is_chosen := true, origin := (some 3, some 4) } := by
  rw [scorer_heuristic_fallback selInputS5 1 2
        { distance := some 500, path := some [(0, 0), (1, 1)],
          origin_lat := some 3, origin_lon := some 4 }
        { stop_id := "S100", distance := some 450, path := some [(0, 0), (2, 2)] }
        { delay_seconds := some 0, route_id := some "14" }
        rfl rfl rfl rfl rfl]
  norm_num [pyNumOr0, MAPF_PENALTY_METERS]

/-- C9: the optimized-routes upsert leaves the stored destination
columns untouched when the (client_id, stop_id, segment_type) key
already exists — even when the call passes different destination
coordinates — replacing only path, is_chosen, origin_lat, origin_lon
and created_at. -/
theorem upsert_preserves_destination (table : List StoredRoute)
    (r : StoredRoute) (a : SaveArgs) (now : ℚ)
    (hr : r ∈ table)
    (hk : routeKey r = (a.client_id, a.stop_id, a.segment_type)) :
    updatedRoute r a now ∈ save_optimized_route table a now ∧
    (updatedRoute r a now).destination_lat = r.destination_lat ∧
    (updatedRoute r a now).destination_lon = r.destination_lon ∧
    (updatedRoute r a now).path = a.path ∧
    (updatedRoute r a now).is_chosen = a.is_chosen ∧
    (updatedRoute r a now).origin_lat = a.origin_coords.map Prod.fst ∧
    (updatedRoute r a now).origin_lon = a.origin_coords.map Prod.snd ∧
    (updatedRoute r a now).created_at = now := by
  have hany : table.any
      (fun x => routeKey x = (a.client_id, a.stop_id, a.segment_type)) = true :=
    List.any_eq_true.mpr ⟨r, hr, by simp [hk]⟩
  refine ⟨?_, rfl, rfl, rfl, rfl, rfl, rfl, rfl⟩
  unfold save_optimized_route
  rw [if_pos hany]
  exact List.mem_map.mpr ⟨r, hr, by rw [if_pos hk]⟩

/-- Witness for C9: upserting with a changed destination (60, 19) onto
a stored row whose destination is (59, 18) keeps the stored
destination. -/
theorem upsert_preserves_destination_witness :
    updatedRoute storedRouteEx saveArgsEx 5 ∈
      save_optimized_route [storedRouteEx] saveArgsEx 5 ∧
    (updatedRoute storedRouteEx saveArgsEx 5).destination_lat = 59 := by
  have h := upsert_preserves_destination [storedRouteEx] storedRouteEx saveArgsEx 5
    (by simp) (by rfl)
  exact ⟨h.1, h.2.1⟩

/-- The seen set of the publisher only grows across a poll. -/
theorem publish_results_seen_mono (publishOk : String × Int × String → Bool)
    (x : String × Int × String) :
    ∀ (rows : List PubRow) (seen : List (String × Int × String)),
      x ∈ seen → x ∈ (publish_results_poll publishOk rows seen).1 := by
  intro rows
  induction rows with
  | nil => intro seen h; exact h
  | cons r rs ih =>
    intro seen h
    unfold publish_results_poll
    by_cases hk : pubKey r ∈ seen
    · rw [if_pos hk]; exact ih seen h
    · rw [if_neg hk]; exact ih (pubKey r :: seen) (List.mem_cons_of_mem _ h)

/-- C7 counterexample: with a single fresh row whose publish fails, the
key is nonetheless left in the dedup set and nothing is published, so
the claim that a failed key stays unmarked (and is retried) is false on
the code, which adds the key before attempting the publish. -/
theorem publish_failed_key_marked_counterexample :
    (publish_results_poll (fun _ => false) [pubRowEx] []).1 =
      [("c1", 7, "t0")] ∧
    (publish_results_poll (fun _ => false) [pubRowEx] []).2 = [] := by
  constructor <;> rfl

/-- C7 amended: `publish_results` adds the key to the in-process dedup
set before attempting the publish, so the key is marked seen even when
the publish fails, and a row carrying a key already in the set is
skipped — a failed row is therefore not retried on a later poll. -/
theorem publish_marks_key_before_publish
    (publishOk : String × Int × String → Bool) (r : PubRow)
    (rs : List PubRow) (seen : List (String × Int × String))
    (h : pubKey r ∉ seen) :
    pubKey r ∈ (publish_results_poll publishOk (r :: rs) seen).1 ∧
    (publish_results_poll publishOk [r] (pubKey r :: seen)).2 = [] := by
  constructor
  · unfold publish_results_poll
    rw [if_neg h]
    exact publish_results_seen_mono publishOk (pubKey r) rs (pubKey r :: seen)
      (List.mem_cons_self _ _)
  · unfold publish_results_poll
    rw [if_pos (List.mem_cons_self _ _)]
    rfl

/-- Witness for C7 amended: the failing row of the counterexample is
marked seen and its repeat is skipped. -/
theorem publish_marks_key_witness :
    ("c1", 7, "t0") ∈
      (publish_results_poll (fun _ => false) [pubRowEx] []).1 ∧
    (publish_results_poll (fun _ => false) [pubRowEx]
      [("c1", 7, "t0")]).2 = [] := by
  have h := publish_marks_key_before_publish (fun _ => false) pubRowEx [] []
    (by simp)
  exact h

/-- Pushing onto the empty heap yields the singleton heap. -/
theorem heappush_nil {α : Type} (lt : α → α → Bool) (a : α) :
    heappush lt [] a = [a] := by
  unfold heappush siftdown
  simp only [List.nil_append, List.length_nil, List.get?]
  unfold siftdownAux
  rfl

/-- Pushing onto a singleton heap sorts the pair by the comparison. -/
theorem heappush_singleton {α : Type} (lt : α → α → Bool) (x b : α) :
    heappush lt [x] b = if lt b x then [b, x] else [x, b] := by
  unfold heappush siftdown
  simp only [List.singleton_append, List.length_singleton, List.get?]
  unfold siftdownAux
  simp only [Nat.zero_lt_one, if_pos, List.get?]
  by_cases h : lt b x
  · rw [if_pos h, if_pos h]
    simp only [List.set]
    unfold siftdownAux
    rfl
  · rw [if_neg h, if_neg h]
    rfl

/-- Popping a two-element heap returns the root and sifts the last
element into its place. -/
theorem heappop_pair {α : Type} (lt : α → α → Bool) (x y : α) :
    heappop lt [x, y] = some (x, [y]) := by
  unfold heappop
  simp only [List.getLast?, List.dropLast]
  show some (x, siftup lt ([x].set 0 y) 0) = some (x, [y])
  simp only [List.set]
  unfold siftup
  simp only [List.get?, List.length]
  unfold siftupWalk
  simp only [List.get?]
  unfold siftdown
  simp only [List.get?, List.set]
  unfold siftdownAux
  rfl

/-- Popping a two-push heap returns the smaller element under the
comparison, independently of insertion order. -/
theorem heappop_two_push {α : Type} (lt : α → α → Bool) (a b : α) :
    heappop lt (heappush lt (heappush lt [] a) b) =
      some (if lt b a then (b, [a]) else (a, [b])) := by
  rw [heappush_nil, heappush_singleton]
  by_cases h : lt b a
  · rw [if_pos h, if_pos h, heappop_pair]
  · rw [if_neg h, if_neg h, heappop_pair]

/-- C8 counterexample: the planner pushes `(f, node)` tuples, so among
equal f-scores the heap pops the smaller node id, not the earlier
insertion: pushing (5, 2) and then (5, 1) pops (5, 1), the
later-inserted entry, refuting the insertion-order tie-break. -/
theorem astar_heap_insertion_order_counterexample :
    (heappop entryLt (heappush entryLt (heappush entryLt []
        ((5 : WithTop ℚ), 2)) ((5 : WithTop ℚ), 1))).map Prod.fst =
      some ((5 : WithTop ℚ), 1) ∧
    some ((5 : WithTop ℚ), 1) ≠ some ((5 : WithTop ℚ), 2) := by
  constructor
  · rfl
  · decide

/-- C8 amended: the open heap of the A* planner is ordered by the
Python comparison on its `(f, node)` tuples — by f-score first, and
among equal f-scores by node id — independently of insertion order: a
strictly smaller f-score pops first in either insertion order, and at
equal f-scores the smaller node id pops first in either insertion
order. -/
theorem astar_heap_order (f f₁ f₂ : WithTop ℚ) (n₁ n₂ : Nat) (hf : f₁ < f₂) :
    ((heappop entryLt (heappush entryLt (heappush entryLt [] (f₁, n₁))
        (f₂, n₂))).map Prod.fst = some (f₁, n₁)) ∧
    ((heappop entryLt (heappush entryLt (heappush entryLt [] (f₂, n₂))
        (f₁, n₁))).map Prod.fst = some (f₁, n₁)) ∧
    ((heappop entryLt (heappush entryLt (heappush entryLt [] (f, n₁))
        (f, n₂))).map Prod.fst = some (f, min n₁ n₂)) ∧
    ((heappop entryLt (heappush entryLt (heappush entryLt [] (f, n₂))
        (f, n₁))).map Prod.fst = some (f, min n₁ n₂)) := by
  refine ⟨?_, ?_, ?_, ?_⟩
  · have h : entryLt (f₂, n₂) (f₁, n₁) = false := by
      simp [entryLt, asymm hf, ne_of_gt hf]
    rw [heappop_two_push, h]
    simp
  · have h : entryLt (f₁, n₁) (f₂, n₂) = true := by
      simp [entryLt, hf]
    rw [heappop_two_push, h]
    simp
  · rw [heappop_two_push]
    rcases Nat.lt_or_ge n₂ n₁ with h | h
    · have he : entryLt (f, n₂) (f, n₁) = true := by simp [entryLt, h]
      rw [he, Nat.min_eq_right (Nat.le_of_lt h)]
      simp
    · have he : entryLt (f, n₂) (f, n₁) = false := by
        simp [entryLt, Nat.not_lt.mpr h]
      rw [he, Nat.min_eq_left h]
      simp
  · rw [heappop_two_push]
    rcases Nat.lt_or_ge n₁ n₂ with h | h
    · have he : entryLt (f, n₁) (f, n₂) = true := by simp [entryLt, h]
      rw [he, Nat.min_eq_left (Nat.le_of_lt h)]
      simp
    · have he : entryLt (f, n₁) (f, n₂) = false := by
        simp [entryLt, Nat.not_lt.mpr h]
      rw [he, Nat.min_eq_right h]
      simp

/-- Witness for C8 amended at f-scores 3 < 4 and the equal-f pair at 5
with node ids 2 and 1. -/
theorem astar_heap_order_witness :
    ((heappop entryLt (heappush entryLt (heappush entryLt []
        ((3 : WithTop ℚ), 2)) ((4 : WithTop ℚ), 1))).map Prod.fst =
      some ((3 : WithTop ℚ), 2)) ∧
    ((heappop entryLt (heappush entryLt (heappush entryLt []
        ((5 : WithTop ℚ), 2)) ((5 : WithTop ℚ), 1))).map Prod.fst =
      some ((5 : WithTop ℚ), 1)) := by
  have h := astar_heap_order (5 : WithTop ℚ) (3 : WithTop ℚ) (4 : WithTop ℚ) 2 1
    (by decide)
  exact ⟨h.1, by simpa using h.2.2.2⟩

/-- One deviation-check step on a choice with a parsed non-empty path:
the streak counter strictly increments on a strict threshold excess and
resets to 0 otherwise, and the check fires exactly when the current
tick is off-path and the previous counter was already positive. -/
theorem deviation_step_eq (pdist : ℚ → ℚ → Path → ℚ) (count : Nat)
    (c : ChoiceRow) (p : Path) (lat lon : ℚ) (thr : ℚ)
    (hpath : c.path_wkt = .lineString p) (hp : p ≠ [])
    (hthr : thr = if c.segment_type = "multimodal" then 60 else 35) :
    needs_reroute_for_deviation pdist count (some c) lat lon =
      (if thr < pdist lat lon p then count + 1 else 0,
       if thr < pdist lat lon p ∧ 1 ≤ count then
         .ok (true, "off_path_" ++ toString (pyTrunc (pdist lat lon p)) ++ "m")
       else .ok (false, "")) := by
  simp only [needs_reroute_for_deviation, hpath, wktFalsy,
    meters_point_to_linestring, if_neg hp, DEVIATION_METERS_MAPF,
    DEVIATION_METERS_DIRECT, DEVIATION_STREAKS_REQUIRED, Bool.false_eq_true,
    if_false, WithTop.coe_lt_coe]
  rw [← hthr]
  by_cases hoff : thr < pdist lat lon p
  · rw [if_pos hoff]
    by_cases hc : 1 ≤ count
    · rw [if_pos (by omega : 2 ≤ count + 1)]
      simp [pyInt, hoff, hc]
    · have hcz : count = 0 := by omega
      subst hcz
      rw [if_neg (by omega : ¬ (2 ≤ 0 + 1))]
      simp [hoff, hc]
  · rw [if_neg hoff, if_neg (by omega : ¬ (2 ≤ 0))]
    simp [hoff]

/-- C3: for a client with a chosen route carrying a non-empty parsed
path, the deviation test fires only when the point-to-polyline distance
strictly exceeds the threshold (35 m unless the segment is multimodal,
60 m when it is) on at least 2 consecutive ticks: a single step fires
exactly when the tick is strictly off and the streak was already
positive, the streak increments on strict excess and resets to 0 on any
in-tolerance tick, a distance exactly at the threshold does not count,
and from a fresh streak two ticks fire exactly when both strictly
exceed the threshold. -/
theorem reroute_deviation_streak (pdist : ℚ → ℚ → Path → ℚ) (c : ChoiceRow)
    (p : Path) (lat lon lat1 lon1 lat2 lon2 : ℚ) (count : Nat) (thr : ℚ)
    (hpath : c.path_wkt = .lineString p) (hp : p ≠ [])
    (hthr : thr = if c.segment_type = "multimodal" then 60 else 35) :
    (((needs_reroute_for_deviation pdist count (some c) lat lon).2 =
        .ok (true, "off_path_" ++ toString (pyTrunc (pdist lat lon p)) ++ "m")) ↔
      (thr < pdist lat lon p ∧ 1 ≤ count)) ∧
    ((needs_reroute_for_deviation pdist count (some c) lat lon).1 =
      if thr < pdist lat lon p then count + 1 else 0) ∧
    (pdist lat lon p = thr →
      needs_reroute_for_deviation pdist count (some c) lat lon =
        (0, .ok (false, ""))) ∧
    (((needs_reroute_for_deviation pdist
          (needs_reroute_for_deviation pdist 0 (some c) lat1 lon1).1
          (some c) lat2 lon2).2 =
        .ok (true, "off_path_" ++ toString (pyTrunc (pdist lat2 lon2 p)) ++ "m")) ↔
      (thr < pdist lat1 lon1 p ∧ thr < pdist lat2 lon2 p)) := by
  have h1 := deviation_step_eq pdist count c p lat lon thr hpath hp hthr
  have h0 := deviation_step_eq pdist 0 c p lat1 lon1 thr hpath hp hthr
  refine ⟨?_, ?_, ?_, ?_⟩
  · rw [h1]
    by_cases hP : thr < pdist lat lon p ∧ 1 ≤ count
    · simp [hP]
    · simp only [if_neg hP]
      simp [hP]
  · rw [h1]
  · intro heq
    rw [h1, heq]
    simp
  · rw [h0]
    have h2 := deviation_step_eq pdist
      (if thr < pdist lat1 lon1 p then 0 + 1 else 0) c p lat2 lon2 thr hpath hp hthr
    rw [h2]
    by_cases hd1 : thr < pdist lat1 lon1 p
    · by_cases hd2 : thr < pdist lat2 lon2 p
      · simp [hd1, hd2]
      · simp [hd1, hd2]
    · by_cases hd2 : thr < pdist lat2 lon2 p
      · simp [hd1, hd2]
      · simp [hd1, hd2]

/-- Witness for C3, scenario S4: a 70 m deviation from a direct path on
the second consecutive off tick fires with reason off_path_70m. -/
theorem reroute_deviation_streak_witness :
    (needs_reroute_for_deviation pdistConst70 1
        (some choiceDirectTwoVertex) 0 0).2 =
      .ok (true, "off_path_70m") := by
  have h := (reroute_deviation_streak pdistConst70 choiceDirectTwoVertex
      [(0, 0), (1, 1)] 0 0 0 0 0 0 1 35 rfl (by decide) (by decide)).1
  exact h.mpr ⟨by norm_num [pdistConst70], le_refl 1⟩

/-- C4 counterexample: when the latest stored A* row has a NULL path —
exactly the shape the fallback branch of the scorer itself seeds — and
no MAPF candidate exists, the scorer persists a chosen row with
segment_type direct and an empty polyline, refuting the claim that
direct rows never carry an empty polyline. -/
theorem chosen_row_shape_counterexample :
    (evaluate_and_store_best_route selInputNullAstarPath).map
      (fun r => (r.segment_type, r.path)) = some ("direct", ([] : Path)) := by
  rfl

/-- C4 amended: every chosen row the scorer persists has segment_type
direct, multimodal or fallback, and its polyline is either empty or has
at least two vertices (paths come from parsed WKT, which shapely never
yields with exactly one vertex); the guarantee that a direct row is
never empty does not hold. -/
theorem chosen_row_shape (inp : SelectorInput) (row : OptRow)
    (ha : ∀ a, inp.astar_row = some a → wfPathOpt a.path)
    (hm : ∀ m, inp.mapf_row = some m → wfPathOpt m.path)
    (hres : evaluate_and_store_best_route inp = some row) :
    (row.segment_type = "direct" ∨ row.segment_type = "multimodal" ∨
      row.segment_type = "fallback") ∧
    (row.path = [] ∨ 2 ≤ row.path.length) := by
  rcases hpoi : inp.poi with _ | ⟨lat, lon⟩
  · simp [evaluate_and_store_best_route, hpoi] at hres
  rcases hastar : inp.astar_row with _ | a
  · rcases hloc : inp.latest_location with _ | ⟨olat, olon⟩
    · simp [evaluate_and_store_best_route, hpoi, hastar, hloc] at hres
    · simp only [evaluate_and_store_best_route, hpoi, hastar, hloc,
        Option.some.injEq] at hres
      subst hres
      exact ⟨Or.inr (Or.inr rfl), Or.inl rfl⟩
  have hwa : a.path.getD [] = [] ∨ 2 ≤ (a.path.getD []).length := by
    rcases hap : a.path with _ | p
    · exact Or.inl rfl
    · have hw := ha a hastar
      rw [hap] at hw
      simpa [wfPathOpt, Option.getD] using hw
  rcases hmapf : inp.mapf_row with _ | m
  · simp only [evaluate_and_store_best_route, hpoi, hastar, hmapf,
      Option.some.injEq] at hres
    subst hres
    exact ⟨Or.inl rfl, hwa⟩
  have hwm : m.path.getD [] = [] ∨ 2 ≤ (m.path.getD []).length := by
    rcases hmp : m.path with _ | p
    · exact Or.inl rfl
    · have hw := hm m hmapf
      rw [hmp] at hw
      simpa [wfPathOpt, Option.getD] using hw
  rcases hdep : inp.dep with _ | d
  · simp only [evaluate_and_store_best_route, hpoi, hastar, hmapf, hdep,
      Option.some.injEq] at hres
    subst hres
    exact ⟨Or.inl rfl, hwa⟩
  rcases hsc : inp.scores with _ | sc
  · simp only [evaluate_and_store_best_route, hpoi, hastar, hmapf, hdep,
      hsc] at hres
    split at hres <;> (simp only [Option.some.injEq] at hres; subst hres)
    · exact ⟨Or.inl rfl, hwa⟩
    · exact ⟨Or.inr (Or.inl rfl), hwm⟩
  · simp only [evaluate_and_store_best_route, hpoi, hastar, hmapf, hdep,
      hsc] at hres
    split at hres <;> (simp only [Option.some.injEq] at hres; subst hres)
    · exact ⟨Or.inl rfl, hwa⟩
    · exact ⟨Or.inr (Or.inl rfl), hwm⟩

/-- Witness for C4 amended at `selInputS5`, whose persisted row is the
two-vertex direct row. -/
theorem chosen_row_shape_witness :
    (rowS5direct.segment_type = "direct" ∨
      rowS5direct.segment_type = "multimodal" ∨
      rowS5direct.segment_type = "fallback") ∧
    (rowS5direct.path = [] ∨ 2 ≤ rowS5direct.path.length) := by
  refine chosen_row_shape selInputS5 rowS5direct ?_ ?_ ?_
  · intro a h
    injection h with h
    rw [← h]
    exact Or.inr (by norm_num)
  · intro m h
    injection h with h
    rw [← h]
    exact Or.inr (by norm_num)
  · show evaluate_and_store_best_route selInputS5 = some rowS5direct
    simp only [evaluate_and_store_best_route, selInputS5]
    norm_num [pyNumOr0, MAPF_PENALTY_METERS, rowS5direct]

/-- C5 counterexample: a prior snapshot whose stop_id is NULL and an
after snapshot whose stop_id is the empty string differ as raw tuples,
yet the watcher coalesces both to the empty string, detects no change
and records no reroute event — refuting the strict if-and-only-if on
the raw tuple. -/
theorem reroute_event_tuple_counterexample :
    choiceTuple rawChoiceNullStop ≠ choiceTuple rawChoiceEmptyStop ∧
    reroute_event (some rawChoiceNullStop) (some rawChoiceEmptyStop)
      "off_path_70m" = none := by
  constructor
  · decide
  · rfl

/-- C5 amended: after the watcher recomputes a route, a reroute event
row is written if and only if a current row exists and either no prior
row exists or the (segment_type, stop_id, path) tuples of the prior and
current rows differ after coalescing each missing field to the empty
string. -/
theorem reroute_event_iff_coalesced_change (before after : Option RawChoice)
    (reason : String) :
    (reroute_event before after reason).isSome ↔
      ∃ a, after = some a ∧
        ∀ b, before = some b →
          (pyStrOr b.segment_type "", pyStrOr b.stop_id "", pyStrOr b.path "") ≠
          (pyStrOr a.segment_type "", pyStrOr a.stop_id "", pyStrOr a.path "") := by
  cases after with
  | none => simp [reroute_event]
  | some a =>
    cases before with
    | none => simp [reroute_event]
    | some b =>
      simp only [reroute_event, Bool.or_eq_true, decide_eq_true_eq,
        Option.some.injEq]
      by_cases h1 : pyStrOr b.segment_type "" = pyStrOr a.segment_type "" <;>
      by_cases h2 : pyStrOr b.stop_id "" = pyStrOr a.stop_id "" <;>
      by_cases h3 : pyStrOr b.path "" = pyStrOr a.path "" <;>
        simp [h1, h2, h3, Prod.ext_iff]

/-- Membership in a conditional singleton list. -/
theorem mem_ite_singleton {α : Type} (x y : α) (c : Prop) [Decidable c] :
    (x ∈ if c then [y] else []) ↔ c ∧ x = y := by
  split <;> simp_all

/-- C6 counterexample: a valid chosen row created 30 seconds before the
poll, inside its client current session window, satisfies the
specification selection (last 60 seconds) yet the query returns
nothing, because the code filters to the last 10 seconds. -/
theorem producer_query_window_counterexample :
    specPublisherSelection producerDbEx 1000 producerRowEx ∧
    fetch_optimized_route producerDbEx 1000 = [] := by
  constructor
  · unfold specPublisherSelection
    refine ⟨Or.inl (by simp [producerDbEx, producerRowEx]), ?_, ?_⟩
    · refine ⟨{ client_id := "c1", session_id := 7, start_time := 900,
                end_time := 1100 }, by simp [producerDbEx],
              { client_id := "c1", session_id := 7 }, by simp [producerDbEx], ?_⟩
      unfold sessionJoin producerRowEx
      norm_num
    · unfold producerRowEx
      norm_num
  · simp only [fetch_optimized_route, producerDbEx, producerRowEx]
    norm_num [sessionJoin]

/-- C6 amended: on every poll the publisher query selects exactly the
rows of the union of is_valid optimized routes and reroutes whose
created_at lies within the last 10 seconds of the current time, joined
to the client current session window. -/
theorem producer_query_membership (db : ProducerDB) (now : ℚ) (r : RouteRow)
    (sid : Int) :
    (r, sid) ∈ fetch_optimized_route db now ↔
      ((∃ o ∈ db.optimized_routes, o.is_valid = true ∧ o.row = r) ∨
        r ∈ db.reroutes) ∧
      ∃ s ∈ db.mqtt_sessions, ∃ c ∈ db.current_sessions,
        sessionJoin r s c ∧ s.session_id = sid ∧ now - 10 ≤ r.created_at := by
  unfold fetch_optimized_route
  simp only [List.mem_flatMap, List.mem_append, List.mem_map, List.mem_filter,
    mem_ite_singleton, Prod.mk.injEq]
  constructor
  · rintro ⟨r', hr', s, hs, c, hc, ⟨hj, hfresh⟩, hrr, hsid⟩
    subst hrr
    subst hsid
    refine ⟨?_, s, hs, c, hc, hj, rfl, hfresh⟩
    rcases hr' with ⟨o, ⟨ho, hov⟩, hor⟩ | hr'
    · exact Or.inl ⟨o, ho, hov, hor⟩
    · exact Or.inr hr'
  · rintro ⟨hu, s, hs, c, hc, hj, hsid, hfresh⟩
    refine ⟨r, ?_, s, hs, c, hc, ⟨hj, hfresh⟩, rfl, hsid.symm⟩
    rcases hu with ⟨o, ho, hov, hor⟩ | hu
    · exact Or.inl ⟨o, ⟨ho, hov⟩, hor⟩
    · exact Or.inr hu

/-- One deviation step against a choice whose stored path parses to an
empty LineString: the distance is infinite, so the streak always
increments, and once it reaches DEVIATION_STREAKS_REQUIRED the reason
string applies int to an infinite distance and raises OverflowError. -/
theorem deviation_step_empty (pdist : ℚ → ℚ → Path → ℚ) (k : Nat)
    (c : ChoiceRow) (lat lon : ℚ) (hpath : c.path_wkt = .lineString []) :
    needs_reroute_for_deviation pdist k (some c) lat lon =
      (k + 1, if 2 ≤ k + 1 then .error "OverflowError" else .ok (false, "")) := by
  simp only [needs_reroute_for_deviation, hpath, wktFalsy,
    meters_point_to_linestring, DEVIATION_STREAKS_REQUIRED,
    Bool.false_eq_true, if_false, eq_self_iff_true, ite_true]
  rw [if_pos (WithTop.coe_lt_top _)]
  by_cases hk : 2 ≤ k + 1
  · rw [if_pos hk, if_pos hk]
    simp [pyInt]
  · rw [if_neg hk, if_neg hk]

/-- C10: the deviation check is not total.  For a chosen route whose
path parses to an empty LineString — as a fallback row's path does —
the point-to-polyline distance is infinite, the off-path streak
increments every tick, on the tick where the streak reaches 2 the
reason-string construction applies int to the infinite distance and
raises instead of returning a decision, and since the per-client body
of loop_once is not wrapped this aborts processing of every remaining
client in that tick. -/
theorem empty_linestring_deviation_crash (pdist : ℚ → ℚ → Path → ℚ)
    (c : ChoiceRow) (ct : ClientTick) (lat lon z now : ℚ)
    (counts : String → Nat) (rest : List ClientTick)
    (hpath : c.path_wkt = .lineString [])
    (hct : ct.choice = some c) (hloc : ct.loc = some (lat, lon, z))
    (hcount : counts ct.client_id = 1) :
    meters_point_to_linestring pdist lat lon c.path_wkt = ⊤ ∧
    needs_reroute_for_deviation pdist 0 (some c) lat lon =
      (1, .ok (false, "")) ∧
    (∀ k, 1 ≤ k →
      needs_reroute_for_deviation pdist k (some c) lat lon =
        (k + 1, .error "OverflowError")) ∧
    (loop_once pdist now (ct :: rest) counts).2 = .error "OverflowError" := by
  refine ⟨?_, ?_, ?_, ?_⟩
  · simp [meters_point_to_linestring, hpath]
  · rw [deviation_step_empty pdist 0 c lat lon hpath]
    norm_num
  · intro k hk
    rw [deviation_step_empty pdist k c lat lon hpath,
      if_pos (by omega : 2 ≤ k + 1)]
  · have hstep := deviation_step_empty pdist 1 c lat lon hpath
    rw [if_pos (by omega : 2 ≤ 1 + 1)] at hstep
    simp only [loop_once, hloc, hct, hcount, hstep]

/-- Witness for C10: with the fallback-shaped empty-LineString choice at
streak 1, the tick crashes with OverflowError and the healthy client
queued behind it is never processed. -/
theorem empty_linestring_deviation_crash_witness :
    (loop_once pdistConst70 0 [tickEmptyLinestring, tickHealthy]
      (fun _ => 1)).2 = .error "OverflowError" :=
  (empty_linestring_deviation_crash pdistConst70 choiceEmptyLinestring
    tickEmptyLinestring 0 0 0 0 (fun _ => 1) [tickHealthy]
    rfl rfl rfl rfl).2.2.2

end UrbanOS
